import Mathlib

/-
  Verification development for the nostr-seed thread-seeding scripts.

  The repository holds two variants of one script:
  - src/src/scripts/generatingHellThread.ts (the "hell thread" variant), whose
    createNote performs NIP-10 style root resolution over the parent tags, and
    whose publishEvent checks the set of confirming relays;
  - src/unnamed/part_000 (the simple variant), whose createNote always tags the
    direct parent as root, and whose publishEvent races the publish promise
    against a 5000 ms timeout.

  JS semantics modelled here: reading element i of an array whose length is at
  most i yields undefined; we model a tag as a list of `Option String`, where
  `none` is undefined, and an out-of-range read also yields `none`.
-/

namespace NostrSeed

/-- A nostr tag as the scripts build and inspect it: a JS array whose elements
are strings or undefined (`none`). -/
abbrev Tag := List (Option String)

/-- An ordered tag list, as stored in `event.tags`. -/
abbrev TagSet := List Tag

/-- JS element read `t[i]`: undefined (`none`) when out of range. -/
def jsGet (t : Tag) (i : Nat) : Option String := (t.get? i).getD none

/-- Predicate of `getMatchingTags("e")` / `t[0] === "e"`: the tag is an
event-reference tag. -/
def isETag (t : Tag) : Bool := jsGet t 0 == some "e"

/-- Predicate of `getMatchingTags("e").find(tag => tag[3] === "root")`: an
event-reference tag carrying the marker "root" at tuple index 3. -/
def isRootMarked (t : Tag) : Bool := isETag t && (jsGet t 3 == some "root")

/-- The fields of a signed note that the threading logic consumes: `event.id`,
`event.pubkey`, `event.tags`, `event.content`. -/
structure Note where
  id : String
  pubkey : String
  tags : TagSet
  content : String
deriving DecidableEq, Repr

/-- Tag construction of `createNote` in generatingHellThread.ts (lines 47-87):
with a parent, start from the immediate-parent event reference and the author
reference, then append one root-marked event reference whose id comes from the
parent root-marked tag if present, else from the first parent event-reference
tag, else from the parent id itself; without a parent, the tag list is empty. -/
def resolveTags (replyTo : Option Note) : TagSet :=
  match replyTo with
  | none => []
  | some p =>
    let base : TagSet := [[some "e", some p.id], [some "p", some p.pubkey]]
    match p.tags.find? isRootMarked with
    | some rootTag => base ++ [[some "e", jsGet rootTag 1, some "", some "root"]]
    | none =>
      match p.tags.find? isETag with
      | some parentRootTag => base ++ [[some "e", jsGet parentRootTag 1, some "", some "root"]]
      | none => base ++ [[some "e", some p.id, some "", some "root"]]

/-- Tag construction of `createNote` in part_000 (lines 20-49): with a parent,
exactly one root-marked event reference to the parent id plus the author
reference; without a parent, the tag list is empty. -/
def resolveTagsSimple (replyTo : Option Note) : TagSet :=
  match replyTo with
  | none => []
  | some p => [[some "e", some p.id, some "", some "root"], [some "p", some p.pubkey]]

/-- The id referenced by the first root-marked event-reference tag of a tag
list, when there is one. -/
def rootRefId (ts : TagSet) : Option String :=
  (ts.find? isRootMarked).bind (fun t => jsGet t 1)

/-- The id referenced by the first event-reference tag of a tag list, when
there is one; in every tag list built by `resolveTags` with a parent this is
the immediate-parent reference. -/
def parentRefId (ts : TagSet) : Option String :=
  (ts.find? isETag).bind (fun t => jsGet t 1)

/-- Root determination transcribed from the specification wording, for
refinement against `resolveTags`: the id referenced by the parent own
root-marked event-reference tag if the parent has one, else the id referenced
by the first parent event-reference tag if the parent has any, else the parent
own id. -/
def specRootId (p : Note) : Option String :=
  match p.tags.find? isRootMarked with
  | some rootTag => jsGet rootTag 1
  | none =>
    match p.tags.find? isETag with
    | some et => jsGet et 1
    | none => some p.id

/-- Outcome of the external promise `event.publish()`: it can resolve with the
set of confirming relays, resolve with a falsy value (guarded against in the
hell-thread variant), or reject with an error message. -/
inductive PublishResolution where
  | resolved (relays : List String)
  | resolvedNull
  | rejected (msg : String)
deriving DecidableEq, Repr

/-- Behaviour of one publish attempt as seen from the script: at which instant
(milliseconds) the promise settles (`none` when it never settles) and how it
settles then. -/
structure PublishBehavior where
  settleAt : Option Nat
  resolution : PublishResolution
deriving DecidableEq, Repr

/-- Timeout of the Promise.race in publishEvent of part_000 (line 74). -/
def PUBLISH_TIMEOUT_MS : Nat := 5000

/-- publishEvent of generatingHellThread.ts (lines 104-128): awaits
`event.publish()` with no timeout, throws when it resolves falsy or with an
empty relay set, rethrows a rejection, succeeds otherwise. The result is `none`
when the operation never completes because the promise never settles. -/
def publishEventHell (b : PublishBehavior) : Option (Except String Unit) :=
  match b.settleAt with
  | none => none
  | some _ =>
    match b.resolution with
    | .resolvedNull => some (.error "Event was not published to any relays")
    | .resolved rs =>
      if rs.length = 0 then some (.error "Event published but no relay confirmations received")
      else some (.ok ())
    | .rejected m => some (.error m)

/-- publishEvent of part_000 (lines 66-95): races `event.publish()` against a
5000 ms timeout; a timeout or a rejection is rethrown; a resolution that wins
the race succeeds without inspecting the relay set (resolving falsy throws a
TypeError at `Array.from`, which the catch rethrows). -/
def publishEventSimple (b : PublishBehavior) : Option (Except String Unit) :=
  match b.settleAt with
  | none => some (.error "Publish timeout")
  | some t =>
    if t < PUBLISH_TIMEOUT_MS then
      match b.resolution with
      | .resolvedNull => some (.error "TypeError: published is not iterable")
      | .resolved _ => some (.ok ())
      | .rejected m => some (.error m)
    else some (.error "Publish timeout")

/-- Result of the reply loop of main in generatingHellThread.ts (lines
266-276) together with its surrounding try/catch (lines 196, 299-304): either
every scheduled reply was published, or a publish failure propagated out of the
loop to the top-level catch and the run aborted, or a publish never completed.
In each case the notes successfully published by the loop are listed in
order. -/
inductive RunResult where
  | completed (published : List Note)
  | aborted (published : List Note) (err : String)
  | hung (published : List Note)
deriving DecidableEq, Repr

/-- The reply built in one loop iteration: `createNote` of
generatingHellThread.ts applied to the current previous note, with the id and
pubkey the signing step assigns to the i-th reply. -/
def mkReply (ids pks : Nat → String) (i : Nat) (prev : Note) : Note :=
  ⟨ids i, pks i, resolveTags (some prev), "reply"⟩

/-- The reply loop of main in generatingHellThread.ts (lines 266-276): each
iteration builds a reply to the previous note and publishes it; on success the
reply becomes the new previous note; a publish failure is rethrown past the
loop (publishEvent line 126) and reaches the top-level catch, aborting the
run. -/
def replyLoop (ids pks : Nat → String) (i : Nat) (prev : Note) (acc : List Note) :
    List PublishBehavior → RunResult
  | [] => .completed acc.reverse
  | b :: rest =>
    let reply := mkReply ids pks i prev
    match publishEventHell b with
    | some (.ok _) => replyLoop ids pks (i + 1) reply (reply :: acc) rest
    | some (.error m) => .aborted acc.reverse m
    | none => .hung acc.reverse

/-- The list of replies the loop publishes from note `prev` when the next `n`
publish attempts all succeed. -/
def chainFrom (ids pks : Nat → String) (i : Nat) (prev : Note) : Nat → List Note
  | 0 => []
  | n + 1 =>
    let r := mkReply ids pks i prev
    r :: chainFrom ids pks (i + 1) r n

/-- The notes of createLinearThread in generatingHellThread.ts (lines
153-173): note 0 is the top note built without a parent (so with an empty tag
list), and note i+1 is built by `createNote` with note i as parent. `ids` and
`pks` are the ids and pubkeys the signing step assigns. -/
def chainNote (ids pks : Nat → String) : Nat → Note
  | 0 => ⟨ids 0, pks 0, [], "TOP NOTE (Linear Thread)"⟩
  | i + 1 => ⟨ids (i + 1), pks (i + 1), resolveTags (some (chainNote ids pks i)), "reply"⟩

/-- JS selection `pool[Math.floor(r * pool.length)]` for one ambient draw `r`
of Math.random(), as in generatingHellThread.ts lines 164-165; an out-of-range
index yields undefined (`none`). -/
def jsPick (pool : List String) (r : ℚ) : Option String :=
  pool.get? (⌊r * pool.length⌋).toNat

/-- The participant and sentence selections of the createLinearThread loop
(generatingHellThread.ts lines 163-166): iteration i consumes the ambient
Math.random draws number 2i (participant) and 2i+1 (sentence). The draw stream
`draw` is the ambient sequence of Math.random values; the run configuration of
the script carries no seed that determines it. -/
def linearSelections (participants sentences : List String) (draw : Nat → ℚ)
    (depth : Nat) : List (Option String × Option String) :=
  (List.range depth).map fun i =>
    (jsPick participants (draw (2 * i)), jsPick sentences (draw (2 * i + 1)))

lemma rootRefId_output (pid ppk : String) (x : Option String) :
    rootRefId [[some "e", some pid], [some "p", some ppk],
      [some "e", x, some "", some "root"]] = x := rfl

lemma parentRefId_output (pid ppk : String) (x : Option String) :
    parentRefId [[some "e", some pid], [some "p", some ppk],
      [some "e", x, some "", some "root"]] = some pid := rfl

lemma countP_rootMarked_output (pid ppk : String) (x : Option String) :
    List.countP isRootMarked [[some "e", some pid], [some "p", some ppk],
      [some "e", x, some "", some "root"]] = 1 := rfl

lemma find?_isETag_eq_none {p : Note} (h : ∀ t ∈ p.tags, isETag t = false) :
    p.tags.find? isETag = none :=
  List.find?_eq_none.mpr fun t ht => by simp [h t ht]

lemma find?_isRootMarked_eq_none {p : Note} (h : ∀ t ∈ p.tags, isETag t = false) :
    p.tags.find? isRootMarked = none :=
  List.find?_eq_none.mpr fun t ht => by simp [isRootMarked, h t ht]

lemma find?_isRootMarked_eq_none_of_unmarked {p : Note}
    (h : ∀ t ∈ p.tags, isRootMarked t = false) :
    p.tags.find? isRootMarked = none :=
  List.find?_eq_none.mpr fun t ht => by simp [h t ht]

example : resolveTags none = [] := by decide

example :
    resolveTags (some ⟨"pid", "ppk", [], "top"⟩) =
      [[some "e", some "pid"], [some "p", some "ppk"],
       [some "e", some "pid", some "", some "root"]] := by decide

example :
    rootRefId (resolveTags (some ⟨"pid", "ppk",
      [[some "e", some "a"], [some "e", some "b", some "", some "root"]], "x"⟩)) =
      some "b" := by decide

example :
    rootRefId (resolveTags (some ⟨"pid", "ppk",
      [[some "e", some "a", some "root"], [some "e", some "b"]], "x"⟩)) =
      some "a" := by decide

lemma resolveTags_of_rootTag {p : Note} {rt : Tag}
    (hr : p.tags.find? isRootMarked = some rt) :
    resolveTags (some p) =
      [[some "e", some p.id], [some "p", some p.pubkey],
       [some "e", jsGet rt 1, some "", some "root"]] := by
  simp only [resolveTags, hr]
  rfl

lemma resolveTags_of_parentTag {p : Note} {et : Tag}
    (hr : p.tags.find? isRootMarked = none) (he : p.tags.find? isETag = some et) :
    resolveTags (some p) =
      [[some "e", some p.id], [some "p", some p.pubkey],
       [some "e", jsGet et 1, some "", some "root"]] := by
  simp only [resolveTags, hr, he]
  rfl

lemma resolveTags_of_noETag {p : Note}
    (hr : p.tags.find? isRootMarked = none) (he : p.tags.find? isETag = none) :
    resolveTags (some p) =
      [[some "e", some p.id], [some "p", some p.pubkey],
       [some "e", some p.id, some "", some "root"]] := by
  simp only [resolveTags, hr, he]
  rfl

lemma chainNote_succ (ids pks : Nat → String) (i : Nat) :
    chainNote ids pks (i + 1) =
      ⟨ids (i + 1), pks (i + 1),
       [[some "e", some (ids i)], [some "p", some (pks i)],
        [some "e", some (ids 0), some "", some "root"]], "reply"⟩ := by
  induction i with
  | zero => rfl
  | succ n ih =>
    show Note.mk _ _ (resolveTags (some (chainNote ids pks (n + 1)))) _ = _
    rw [ih]
    rfl

/-- C1: for every note built with a non-none parent, the id referenced by the
root-marked event-reference tag of the resolved tag set equals the id of the
parent root-marked tag when present, else the id of the first parent
event-reference tag when present, else the parent id. This holds for all
parents under the generatingHellThread.ts resolver, and for all parents with
no event-reference tags (the only shape part_000 passes, since its replies all
target the tagless top note) under the part_000 resolver. -/
theorem createNote_root_matches_parent_root :
    (∀ p : Note, rootRefId (resolveTags (some p)) = specRootId p) ∧
    (∀ p : Note, (∀ t ∈ p.tags, isETag t = false) →
      rootRefId (resolveTagsSimple (some p)) = specRootId p) := by
  constructor
  · intro p
    unfold specRootId
    cases hr : p.tags.find? isRootMarked with
    | some rootTag => rw [resolveTags_of_rootTag hr]; rfl
    | none =>
      cases he : p.tags.find? isETag with
      | some et => rw [resolveTags_of_parentTag hr he]; rfl
      | none => rw [resolveTags_of_noETag hr he]; rfl
  · intro p h
    unfold specRootId
    rw [find?_isRootMarked_eq_none h, find?_isETag_eq_none h]
    rfl

/-- Witness for C1 at a concrete tagless parent. -/
theorem createNote_root_matches_parent_root_witness :
    rootRefId (resolveTagsSimple (some ⟨"id0", "pk0", [], "c"⟩)) =
      specRootId ⟨"id0", "pk0", [], "c"⟩ :=
  createNote_root_matches_parent_root.2 _ (by decide)

/-- C2: for every shape of the parent tags, the tag set resolved by createNote
in generatingHellThread.ts contains exactly one event-reference tag carrying
the marker "root". -/
theorem createNote_exactly_one_root_marked (p : Note) :
    (resolveTags (some p)).countP isRootMarked = 1 := by
  cases hr : p.tags.find? isRootMarked with
  | some rootTag =>
    rw [resolveTags_of_rootTag hr]
    exact countP_rootMarked_output p.id p.pubkey (jsGet rootTag 1)
  | none =>
    cases he : p.tags.find? isETag with
    | some et =>
      rw [resolveTags_of_parentTag hr he]
      exact countP_rootMarked_output p.id p.pubkey (jsGet et 1)
    | none =>
      rw [resolveTags_of_noETag hr he]
      exact countP_rootMarked_output p.id p.pubkey (some p.id)

/-- C3: in the linear chain of createLinearThread, every reply note (depth i+1,
any i) carries a root-marked reference to the top note id and an
immediate-parent reference to the directly preceding note id, for every chain
length. -/
theorem linearChain_root_and_parent (ids pks : Nat → String) (i : Nat) :
    rootRefId (chainNote ids pks (i + 1)).tags = some (ids 0) ∧
    parentRefId (chainNote ids pks (i + 1)).tags = some (ids i) := by
  rw [chainNote_succ]
  exact ⟨rootRefId_output (ids i) (pks i) (some (ids 0)),
         parentRefId_output (ids i) (pks i) (some (ids 0))⟩

/-- C8: root resolution is total: for every shape of the parent tags the
resolver returns a three-tag set, and when the parent carries no
event-reference tag at all it falls back to the parent own id as root. -/
theorem resolveTags_total_with_fallback :
    (∀ p : Note, (resolveTags (some p)).length = 3) ∧
    (∀ p : Note, (∀ t ∈ p.tags, isETag t = false) →
      rootRefId (resolveTags (some p)) = some p.id) := by
  constructor
  · intro p
    cases hr : p.tags.find? isRootMarked with
    | some rootTag => rw [resolveTags_of_rootTag hr]; rfl
    | none =>
      cases he : p.tags.find? isETag with
      | some et => rw [resolveTags_of_parentTag hr he]; rfl
      | none => rw [resolveTags_of_noETag hr he]; rfl
  · intro p h
    rw [resolveTags_of_noETag (find?_isRootMarked_eq_none h) (find?_isETag_eq_none h)]
    exact rootRefId_output p.id p.pubkey (some p.id)

/-- Witness for C8 at a concrete malformed parent whose tags hold no
event-reference tag. -/
theorem resolveTags_total_with_fallback_witness :
    rootRefId (resolveTags (some ⟨"mid", "mpk",
      [[some "x"], [], [none, some "y"]], "c"⟩)) = some "mid" :=
  resolveTags_total_with_fallback.2 _ (by decide)

/-- C9: the root marker is recognized only at tuple index 3: a tag shaped
["e", id, "root"] is treated as unmarked, and when the parent carries two or
more event-reference tags none of which has "root" at index 3, the resolved
root id is read from the first event-reference tag. -/
theorem rootMarker_only_at_index_three :
    (∀ p : Note, (∀ t ∈ p.tags, isRootMarked t = false) →
      2 ≤ p.tags.countP isETag →
      ∀ et, p.tags.find? isETag = some et →
        rootRefId (resolveTags (some p)) = jsGet et 1) ∧
    isRootMarked [some "e", some "x", some "root"] = false ∧
    isRootMarked [some "e", some "x", some "", some "root"] = true := by
  refine ⟨?_, rfl, rfl⟩
  intro p h _ et het
  rw [resolveTags_of_parentTag (find?_isRootMarked_eq_none_of_unmarked h) het]
  exact rootRefId_output p.id p.pubkey (jsGet et 1)

/-- Witness for C9 at a parent with two event-reference tags, the first of
which carries "root" at index 2 (not index 3). -/
theorem rootMarker_only_at_index_three_witness :
    rootRefId (resolveTags (some ⟨"pid", "ppk",
      [[some "e", some "a", some "root"], [some "e", some "b"]], "c"⟩)) =
      some "a" :=
  rootMarker_only_at_index_three.1 _ (by decide) (by decide)
    [some "e", some "a", some "root"] rfl

/-- C10: when the parent is itself a thread root (no event-reference tags),
the resolved tag set holds two separate event-reference tags that both
reference the parent id, an unmarked immediate-parent one and a root-marked
one, never collapsed into a single tag. -/
theorem rootless_parent_two_e_tags (p : Note)
    (h : ∀ t ∈ p.tags, isETag t = false) :
    resolveTags (some p) =
      [[some "e", some p.id], [some "p", some p.pubkey],
       [some "e", some p.id, some "", some "root"]] ∧
    (resolveTags (some p)).countP isETag = 2 := by
  have heq : resolveTags (some p) =
      [[some "e", some p.id], [some "p", some p.pubkey],
       [some "e", some p.id, some "", some "root"]] :=
    resolveTags_of_noETag (find?_isRootMarked_eq_none h) (find?_isETag_eq_none h)
  exact ⟨heq, by rw [heq]; rfl⟩

/-- Witness for C10 at a concrete rootless parent. -/
theorem rootless_parent_two_e_tags_witness :
    resolveTags (some ⟨"rid", "rpk", [], "top"⟩) =
      [[some "e", some "rid"], [some "p", some "rpk"],
       [some "e", some "rid", some "", some "root"]] ∧
    (resolveTags (some (⟨"rid", "rpk", [], "top"⟩ : Note))).countP isETag = 2 :=
  rootless_parent_two_e_tags _ (by decide)

/-- C4 counterexample: when every relay explicitly rejects and the publish
promise therefore resolves with an empty confirmation set before the timeout,
the part_000 publishEvent returns success instead of failing: it never
inspects the confirmation set. -/
theorem publishSimple_zero_confirmations_succeeds :
    publishEventSimple ⟨some 0, .resolved []⟩ = some (.ok ()) := rfl

/-- C4 amended: zero-confirmation publishes always fail in the
generatingHellThread publishEvent (empty set, falsy resolution, and rejection
all throw), while the part_000 publishEvent succeeds on any resolution that
beats the timeout, regardless of the confirmation set. -/
theorem publish_zero_confirmations_amended :
    (∀ t, publishEventHell ⟨some t, .resolved []⟩ =
      some (.error "Event published but no relay confirmations received")) ∧
    (∀ t, publishEventHell ⟨some t, .resolvedNull⟩ =
      some (.error "Event was not published to any relays")) ∧
    (∀ t m, publishEventHell ⟨some t, .rejected m⟩ = some (.error m)) ∧
    (∀ t rs, t < PUBLISH_TIMEOUT_MS →
      publishEventSimple ⟨some t, .resolved rs⟩ = some (.ok ())) := by
  refine ⟨fun t => rfl, fun t => rfl, fun t m => rfl, fun t rs h => ?_⟩
  simp [publishEventSimple, h]

/-- Witness for C4 amended at a publish resolving at 0 ms with one relay. -/
theorem publish_zero_confirmations_amended_witness :
    publishEventSimple ⟨some 0, .resolved ["r1"]⟩ = some (.ok ()) :=
  publish_zero_confirmations_amended.2.2.2 0 ["r1"] (by decide)

/-- C5 counterexample: the generatingHellThread publishEvent awaits
`event.publish()` with no timeout at all, so with a promise that never settles
the operation never completes; no PublishTimeout error is ever produced. -/
theorem publishHell_no_timeout :
    publishEventHell ⟨none, .resolved ["r2"]⟩ = none := rfl

/-- C5 amended: only the part_000 publishEvent applies the 5000 ms timeout,
failing with "Publish timeout" whenever the publish promise has not settled
before the bound; the generatingHellThread publishEvent applies no timeout and
completes exactly when the promise settles. -/
theorem publish_timeout_amended :
    (∀ r, publishEventSimple ⟨none, r⟩ = some (.error "Publish timeout")) ∧
    (∀ t r, PUBLISH_TIMEOUT_MS ≤ t →
      publishEventSimple ⟨some t, r⟩ = some (.error "Publish timeout")) ∧
    (∀ r, publishEventHell ⟨none, r⟩ = none) := by
  refine ⟨fun r => rfl, fun t r h => ?_, fun r => rfl⟩
  have hn : ¬ t < PUBLISH_TIMEOUT_MS := not_lt.mpr h
  cases r <;> simp [publishEventSimple, hn]

/-- Witness for C5 amended at a publish settling exactly at the bound. -/
theorem publish_timeout_amended_witness :
    publishEventSimple ⟨some 5000, .resolved ["r1"]⟩ =
      some (.error "Publish timeout") :=
  publish_timeout_amended.2.1 5000 _ (by decide)

lemma replyLoop_aborted_of_failure (ids pks : Nat → String) :
    ∀ (pre : List PublishBehavior) (i : Nat) (prev : Note) (acc : List Note)
      (b : PublishBehavior) (post : List PublishBehavior) (m : String),
      (∀ x ∈ pre, publishEventHell x = some (.ok ())) →
      publishEventHell b = some (.error m) →
      replyLoop ids pks i prev acc (pre ++ b :: post) =
        .aborted (acc.reverse ++ chainFrom ids pks i prev pre.length) m := by
  intro pre
  induction pre with
  | nil =>
    intro i prev acc b post m _ hb
    simp [replyLoop, hb, chainFrom]
  | cons x pre ih =>
    intro i prev acc b post m hpre hb
    have hx : publishEventHell x = some (.ok ()) := hpre x (List.mem_cons_self x pre)
    simp only [List.cons_append, replyLoop, hx, List.append_eq]
    rw [ih (i + 1) (mkReply ids pks i prev) (mkReply ids pks i prev :: acc) b post m
        (fun y hy => hpre y (List.mem_cons_of_mem x hy)) hb]
    simp [chainFrom, List.append_assoc]

lemma chainFrom_map_id (ids pks : Nat → String) :
    ∀ (n i : Nat) (prev : Note),
      (chainFrom ids pks i prev n).map Note.id =
        (List.range n).map (fun j => ids (i + j)) := by
  intro n
  induction n with
  | zero => intro i prev; rfl
  | succ k ih =>
    intro i prev
    rw [List.range_succ_eq_map]
    simp only [chainFrom, List.map_cons, List.map_map]
    refine congrArg₂ _ (by simp [mkReply]) ?_
    rw [ih (i + 1) (mkReply ids pks i prev)]
    refine List.map_congr_left fun a _ => ?_
    simp only [Function.comp_apply]
    congr 1
    omega

/-- Concrete reply ids for the closed run instances: the signing step assigns
the decimal numeral of the reply index. -/
def natIds : Nat → String := fun n => toString n

/-- Concrete constant pubkey assignment for the closed run instances. -/
def constPk : Nat → String := fun _ => "pk"

/-- Concrete start note for the closed run instances. -/
def startNote : Note := ⟨"start", "spk", [], "top"⟩

/-- Ambient draw stream that always yields 0. -/
def drawZero : Nat → ℚ := fun _ => 0

/-- Ambient draw stream that always yields one half. -/
def drawHalf : Nat → ℚ := fun _ => (1 : ℚ)/2

/-- Ambient draw stream yielding 0 on the first two draws and 1 after. -/
def drawZeroThenOne : Nat → ℚ := fun n => if n < 2 then 0 else 1

/-- C6 amended: a publish failure is rethrown from publishEvent and the reply
loop of main does not catch it, so it unwinds to the top-level catch and the
run aborts: the successfully published notes are exactly the ones before the
failure, no subsequent scheduled note (the `post` list) is attempted, no
per-reason counter exists, and the failed note (id at index pre.length + 1)
never enters the published pool. -/
theorem publish_failure_aborts_run (ids pks : Nat → String) (start : Note)
    (pre post : List PublishBehavior) (b : PublishBehavior) (m : String)
    (hpre : ∀ x ∈ pre, publishEventHell x = some (.ok ()))
    (hb : publishEventHell b = some (.error m)) :
    replyLoop ids pks 1 start [] (pre ++ b :: post) =
      .aborted (chainFrom ids pks 1 start pre.length) m ∧
    (chainFrom ids pks 1 start pre.length).map Note.id =
      (List.range pre.length).map (fun j => ids (1 + j)) := by
  constructor
  · simpa using replyLoop_aborted_of_failure ids pks pre 1 start [] b post m hpre hb
  · exact chainFrom_map_id ids pks pre.length 1 start

/-- Witness for C6 amended: one successful publish followed by a rejected one
aborts the run with exactly the first reply published. -/
theorem publish_failure_aborts_run_witness :
    replyLoop natIds constPk 1 startNote []
      [⟨some 1, .resolved ["a"]⟩, ⟨some 1, .rejected "boom"⟩] =
      .aborted [mkReply natIds constPk 1 startNote] "boom" := by
  have h := publish_failure_aborts_run natIds constPk startNote
    [⟨some 1, .resolved ["a"]⟩] [] ⟨some 1, .rejected "boom"⟩
    "boom" (fun x hx => by rw [List.mem_singleton] at hx; subst hx; rfl) rfl
  simpa [chainFrom] using h.1

/-- C6 counterexample: scheduling three publishes where the second resolves
with zero confirmations, the run aborts after the first note: the failure is
not caught at the loop, the third (perfectly healthy) publish is never
attempted, and nothing counts the failure by reason. The claim instead says
the run proceeds to subsequent notes. -/
theorem publish_failure_not_contained :
    replyLoop natIds constPk 1 startNote []
      [⟨some 0, .resolved ["r"]⟩, ⟨some 0, .resolved []⟩, ⟨some 0, .resolved ["r"]⟩] =
      .aborted [mkReply natIds constPk 1 startNote]
        "Event published but no relay confirmations received" := rfl

/-- C7 counterexample: two runs with identical configuration (same pool, same
sentence list, same depth; the scripts take no seed input) but different
ambient Math.random draw sequences select different participants: selection
reads the ambient global random source, not an injected seeded one. -/
theorem selection_depends_on_ambient_draws :
    linearSelections ["A", "B"] ["s"] drawZero 1 ≠
      linearSelections ["A", "B"] ["s"] drawHalf 1 := by
  have h1 : linearSelections ["A", "B"] ["s"] drawZero 1
      = [(some "A", some "s")] := by
    norm_num [linearSelections, jsPick, drawZero]
  have h2 : linearSelections ["A", "B"] ["s"] drawHalf 1
      = [(some "B", some "s")] := by
    norm_num [linearSelections, jsPick, drawHalf]
  rw [h1, h2]
  simp

/-- C7 amended: selections are a deterministic function of the pool and of the
ambient Math.random draw sequence (only the first 2·depth draws are
consulted), but the source of those draws is the ambient global Math.random,
never an injected seedable dependency: the run configuration carries no seed,
so identical configurations do not guarantee identical selections. -/
theorem selection_deterministic_in_draws (participants sentences : List String)
    (draw draw2 : Nat → ℚ) (d : Nat) (h : ∀ n, n < 2 * d → draw n = draw2 n) :
    linearSelections participants sentences draw d =
      linearSelections participants sentences draw2 d := by
  unfold linearSelections
  refine List.map_congr_left fun i hi => ?_
  rw [List.mem_range] at hi
  rw [h (2 * i) (by omega), h (2 * i + 1) (by omega)]

/-- Witness for C7 amended: two draw streams that agree on the consulted
prefix give the same selections. -/
theorem selection_deterministic_in_draws_witness :
    linearSelections ["A", "B"] ["s"] drawZero 1 =
      linearSelections ["A", "B"] ["s"] drawZeroThenOne 1 :=
  selection_deterministic_in_draws _ _ _ _ 1
    (fun n hn => by
      have h2 : n < 2 := by omega
      simp [drawZero, drawZeroThenOne, h2])

end NostrSeed
